import Mathlib

/-!
Verification of the docs-rs MCP server (`src/index.ts`).

The four tool operations (`searchCrates`, `getReadMe`, `getItem`,
`searchInCrate`) are embedded shallowly: HTTP fetching is represented by an
explicit oracle `fetch : String → FetchOutcome`, the Turndown HTML→Markdown
renderer by an explicit function parameter `td : String → String`, and a
fetched HTML page by the results of the fixed cheerio selector queries the
code performs (a `Page` record).  JavaScript string primitives used by the
code (`split("::")`, `replaceAll("::", "/")`, `join("/")`, `includes`,
`toLowerCase`, `trim`, `startsWith`) are modelled as structurally recursive
functions over `List Char` so that every definition evaluates by `decide`.
-/

namespace DocsRs

/-! ### JavaScript string primitives -/

/-- `isPrefixOfL p l` : does the character list `l` start with `p`? -/
def isPrefixOfL : List Char → List Char → Bool
  | [], _ => true
  | _ :: _, [] => false
  | a :: as, b :: bs => a == b && isPrefixOfL as bs

/-- Model of JavaScript `hay.includes(pat)` over character lists. -/
def includesL (pat : List Char) : List Char → Bool
  | [] => isPrefixOfL pat []
  | c :: rest => isPrefixOfL pat (c :: rest) || includesL pat rest

/-- Model of JavaScript `s.includes(pat)`. -/
def includesS (s pat : String) : Bool :=
  includesL pat.data s.data

/-- Model of JavaScript `s.startsWith(pat)`. -/
def startsWithS (s pat : String) : Bool :=
  isPrefixOfL pat.data s.data

/-- Model of JavaScript `s.toLowerCase()` (ASCII case folding). -/
def lowerS (s : String) : String :=
  ⟨s.data.map Char.toLower⟩

/-- Model of JavaScript `s.trim()`. -/
def trimS (s : String) : String :=
  ⟨((s.data.dropWhile Char.isWhitespace).reverse.dropWhile Char.isWhitespace).reverse⟩

/-- Model of JavaScript `s.split("::")` over character lists. -/
def splitOnColons : List Char → List (List Char)
  | [] => [[]]
  | [c] => [[c]]
  | a :: b :: rest =>
    if a == ':' && b == ':' then [] :: splitOnColons rest
    else
      match splitOnColons (b :: rest) with
      | [] => [[a]]
      | seg :: segs => (a :: seg) :: segs

/-- Model of JavaScript `s.replaceAll("::", "/")` over character lists. -/
def replaceColons : List Char → List Char
  | [] => []
  | [c] => [c]
  | a :: b :: rest =>
    if a == ':' && b == ':' then '/' :: replaceColons rest
    else a :: replaceColons (b :: rest)

/-- Model of JavaScript `parts.join(sep)` over character lists. -/
def joinL (sep : List Char) : List (List Char) → List Char
  | [] => []
  | [x] => x
  | x :: y :: rest => x ++ sep ++ joinL sep (y :: rest)

/-- String-level `parts.join(sep)`. -/
def strJoin (sep : String) (parts : List String) : String :=
  ⟨joinL sep.data (parts.map String.data)⟩

/-- String-level `s.split("::")`. -/
def jsSplitColons (s : String) : List String :=
  (splitOnColons s.data).map (fun l => (⟨l⟩ : String))

/-- String-level `s.replaceAll("::", "/")`. -/
def jsReplaceColons (s : String) : String :=
  ⟨replaceColons s.data⟩

/-! ### Data model -/

/-- One `<a>` element under `#main-content` of the fetched `all.html` page:
its visible text and its (possibly missing) `href` attribute. -/
structure PageLink where
  text : String
  href? : Option String
deriving DecidableEq

/-- One entry collected while scanning the index page (`items.push` in
`searchInCrate`). -/
structure ItemRecord where
  name : String
  type : String
  link : String
deriving DecidableEq

/-- A fetched HTML page, represented by the results of the cheerio queries
the code performs on it.  A field is `none` when the selector matches no
element (`.length === 0`) and `some h` when the first match has inner HTML
`h` (with cheerio's `null` already collapsed to `""` as the code does via
`|| ""`). -/
structure Page where
  /-- `$("#main-content .docblock")` — only consulted by the spec's
  four-selector cascade, never by the code. -/
  mainContentDocblock : Option String
  /-- `$("#main-content")` -/
  mainContent : Option String
  /-- `$(".rustdoc .docblock").first()` -/
  rustdocDocblock : Option String
  /-- `$(".rustdoc-main .item-decl").first()` -/
  rustdocMainItemDecl : Option String
  /-- `$(".rustdoc .item-decl").first()` -/
  rustdocItemDecl : Option String
  /-- `$("#main-content a")` in document order -/
  mainContentLinks : List PageLink
deriving DecidableEq

deriving instance DecidableEq for Except

/-- Outcome of one `axios.get` against a URL: the parsed page, or a thrown
error rendered as its message string (a non-2xx status such as 404 makes
axios throw, so it is an `err` here). -/
inductive FetchOutcome where
  | ok (page : Page)
  | err (msg : String)
deriving DecidableEq

/-! ### `getReadMe` (docs_rs_readme) -/

/-- The single URL `getReadMe` fetches (index.ts line 278). -/
def getReadMeUrl (crate_name version : String) : String :=
  "https://docs.rs/" ++ crate_name ++ "/" ++ version ++ "/" ++ crate_name ++ "/index.html"

/-- Embedding of `getReadMe` (index.ts lines 274-313).  Returns the text
payload on success and the thrown error message on failure. -/
def getReadMe (fetch : String → FetchOutcome) (td : String → String)
    (crate_name : String) (version? : Option String) : Except String String :=
  let version := version?.getD "latest"
  let url := getReadMeUrl crate_name version
  match fetch url with
  | .err e => .error ("Failed to get README for " ++ crate_name ++ ": " ++ e)
  | .ok page =>
    let mainContent := page.rustdocDocblock
    if mainContent.isNone && page.rustdocMainItemDecl.isNone then
      .ok ("# " ++ crate_name ++ " Documentation\n\nNo documentation content found at " ++ url)
    else
      .ok ("# " ++ crate_name ++ " Documentation\n\n" ++ td (mainContent.getD ""))

/-! ### `getItem` (docs_rs_get_item) -/

/-- The URL `getItem` fetches (index.ts lines 331-342). -/
def getItemUrl (crate_name item_type item_path version : String) : String :=
  let item_name := (jsSplitColons item_path).getLast?.getD ""
  if item_type == "module" then
    "https://docs.rs/" ++ crate_name ++ "/" ++ version ++ "/" ++ jsReplaceColons item_path ++ "/index.html"
  else
    let pathParts := jsSplitColons item_path
    let modulePath := strJoin "/" pathParts.dropLast
    "https://docs.rs/" ++ crate_name ++ "/" ++ version ++ "/" ++ modulePath ++ "/" ++ item_type ++ "." ++ item_name ++ ".html"

/-- The `contentHtml` accumulation of `getItem` (index.ts lines 347-368). -/
def getItemContentHtml (page : Page) : String :=
  match page.mainContent with
  | some h => h
  | none =>
    let declPart :=
      match page.rustdocItemDecl with
      | some h => h
      | none => ""
    let docPart :=
      match page.rustdocDocblock with
      | none =>
        match page.rustdocMainItemDecl with
        | some h => h
        | none => ""
      | some h => h
    declPart ++ docPart

/-- Embedding of `getItem` (index.ts lines 328-397). -/
def getItem (fetch : String → FetchOutcome) (td : String → String)
    (crate_name item_type item_path : String) (version? : Option String) :
    Except String String :=
  let version := version?.getD "latest"
  let url := getItemUrl crate_name item_type item_path version
  match fetch url with
  | .err e => .error ("Failed to get item documentation for " ++ item_path ++ ": " ++ e)
  | .ok page =>
    let contentHtml := getItemContentHtml page
    if contentHtml == "" then
      .ok ("# " ++ item_path ++ " (" ++ item_type ++ ")\n\nNo documentation content found at " ++ url)
    else
      .ok ("# " ++ item_path ++ " (" ++ item_type ++ ")\n\n**Documentation URL:** " ++ url ++ "\n\n" ++ td contentHtml)

/-! ### `searchInCrate` (docs_rs_search_in_crate) -/

/-- Kind classification of a link by its href (index.ts lines 433-441). -/
def classifyType (itemLink : String) : String :=
  if includesS itemLink "struct." then "struct"
  else if includesS itemLink "trait." then "trait"
  else if includesS itemLink "fn." then "function"
  else if includesS itemLink "enum." then "enum"
  else if includesS itemLink "type." then "type"
  else if includesS itemLink "const." then "constant"
  else if includesS itemLink "static." then "static"
  else if includesS itemLink "macro." then "macro"
  else "unknown"

/-- `matchesQuery` (index.ts line 443).  JavaScript's `!query` truthiness
test on a string coincides with the `query == ""` test that follows it, so
the two collapse to a single emptiness check here. -/
def matchesQueryFn (query : Option String) (itemName : String) : Bool :=
  match query with
  | none => true
  | some q => q == "" || includesS (lowerS itemName) (lowerS q)

/-- `matchesType` (index.ts line 444). -/
def matchesTypeFn (item_type : Option String) (ty itemName : String) : Bool :=
  match item_type with
  | none => true
  | some t => t == "" || ty == t || includesS (lowerS itemName) (lowerS t)

/-- Processing of one `<a>` element in the `.each` loop of `searchInCrate`
(index.ts lines 426-453): `none` when the link is skipped or filtered out,
`some record` when it is pushed onto `items`. -/
def scanLink (crate_name version : String) (query item_type : Option String)
    (lnk : PageLink) : Option ItemRecord :=
  let itemName := trimS lnk.text
  let itemLink := lnk.href?.getD ""
  if itemName == "" || itemLink == "" then none
  else
    let ty := classifyType itemLink
    if matchesQueryFn query itemName && matchesTypeFn item_type ty itemName && !(ty == "unknown") then
      some { name := itemName
             type := ty
             link :=
               if startsWithS itemLink "http" then itemLink
               else "https://docs.rs/" ++ crate_name ++ "/" ++ version ++ "/" ++ crate_name ++ "/" ++ itemLink }
    else none

/-- The deduplication key comparison used by `findIndex` in index.ts
line 456: `i.name === item.name && i.type === item.type`. -/
def sameKey (a b : ItemRecord) : Bool :=
  a.name == b.name && a.type == b.type

/-- Does the record at position `i` survive the `filter`/`findIndex`
deduplication (index.ts lines 455-457)?  It survives exactly when `i` is the
first index carrying its (name, type) key. -/
def survivesAt (items : List ItemRecord) (i : Nat) : Bool :=
  match items.get? i with
  | some it => items.findIdx (fun x => sameKey x it) == i
  | none => false

/-- `uniqueItems` (index.ts lines 455-457): keep each record whose index is
the first index with its (name, type) key, in scan order. -/
def uniqueItemsOf (items : List ItemRecord) : List ItemRecord :=
  ((List.range items.length).filter (fun i => survivesAt items i)).filterMap items.get?

/-- `searchTerm` (index.ts line 459): `query || "all items"`. -/
def searchTermOf (query : Option String) : String :=
  match query with
  | none => "all items"
  | some q => if q == "" then "all items" else q

/-- The URL `searchInCrate` fetches (index.ts line 416). -/
def searchInCrateUrl (crate_name version : String) : String :=
  "https://docs.rs/" ++ crate_name ++ "/" ++ version ++ "/" ++ crate_name ++ "/all.html"

/-- The result list rendering of `searchInCrate` (index.ts lines 466-477). -/
def renderItems (uniqueItems : List ItemRecord) : String :=
  if uniqueItems.length == 0 then "No matching items found."
  else
    strJoin "\n" (uniqueItems.map (fun item =>
      "## " ++ item.name ++ " (" ++ item.type ++ ")\n\n**Description:** " ++ item.type ++
      "\n\n**Link:** [View Documentation](" ++ item.link ++ ")\n\n---\n"))

/-- Embedding of `searchInCrate` (index.ts lines 412-484). -/
def searchInCrate (fetch : String → FetchOutcome) (crate_name : String)
    (query : Option String) (version? : Option String) (item_type : Option String) :
    Except String String :=
  let version := version?.getD "latest"
  let url := searchInCrateUrl crate_name version
  match fetch url with
  | .err e => .error ("Failed to search items in " ++ crate_name ++ ": " ++ e)
  | .ok page =>
    let items := page.mainContentLinks.filterMap (scanLink crate_name version query item_type)
    let uniqueItems := uniqueItemsOf items
    .ok ("# Search Results for \"" ++ searchTermOf query ++ "\" in " ++ crate_name ++
      "\n\nFound " ++ toString uniqueItems.length ++ " items\n\n" ++ renderItems uniqueItems)

/-! ### Spec-side definitions and concrete fixtures -/

/-- The ordered (marker, kind) table of §4.6 of the spec. -/
def markerTable : List (String × String) :=
  [("struct.", "struct"), ("trait.", "trait"), ("fn.", "function"), ("enum.", "enum"),
   ("type.", "type"), ("const.", "constant"), ("static.", "static"), ("macro.", "macro")]

/-- First-match-wins lookup over an ordered marker table. -/
def firstMatch (href : String) : List (String × String) → Option String
  | [] => none
  | m :: rest => if includesS href m.1 then some m.2 else firstMatch href rest

/-- Modelled from the spec: classification as an ordered table of
(marker, kind) pairs evaluated in sequence, first match wins, default
"unknown" (the spec's `unrecognized` kind is the code's `"unknown"`). -/
def classifySpec (href : String) : String :=
  (firstMatch href markerTable).getD "unknown"

/-- Modelled from the spec: the retention predicate of §4.6 — (a) no query
or the query is a case-insensitive substring of the display name, (b) no
kind filter or the filter equals the classified kind exactly or is a
case-insensitive substring of the display name, (c) the classified kind is
not the unrecognized default. -/
def specRetain (query item_type : Option String) (displayName href : String) : Bool :=
  (match query with
   | none => true
   | some q => includesS (lowerS displayName) (lowerS q)) &&
  (match item_type with
   | none => true
   | some t => classifyType href == t || includesS (lowerS displayName) (lowerS t)) &&
  !(classifyType href == "unknown")

/-- Modelled from the spec: the three crate-overview candidate URLs of §4.2,
in priority order — `{crate}/{version}/{crate}/index.html`, then the
directory form without the filename, then the bare version directory.
No such candidate list exists in the code (`getReadMe` builds one URL). -/
def specReadmeCandidates (crate_name version : String) : List String :=
  ["https://docs.rs/" ++ crate_name ++ "/" ++ version ++ "/" ++ crate_name ++ "/index.html",
   "https://docs.rs/" ++ crate_name ++ "/" ++ version ++ "/" ++ crate_name ++ "/",
   "https://docs.rs/" ++ crate_name ++ "/" ++ version ++ "/"]

/-- Modelled from the spec: the four-selector overview extraction cascade of
§4.4 — primary-content description block, bare primary-content container,
legacy description block, legacy item declaration; the HTML of the first
selector that matches, else the empty string. -/
def specOverviewExtract (page : Page) : String :=
  match page.mainContentDocblock with
  | some h => h
  | none =>
    match page.mainContent with
    | some h => h
    | none =>
      match page.rustdocDocblock with
      | some h => h
      | none =>
        match page.rustdocMainItemDecl with
        | some h => h
        | none => ""

/-- A fetched page on which every selector is empty. -/
def emptyPage : Page :=
  { mainContentDocblock := none, mainContent := none, rustdocDocblock := none,
    rustdocMainItemDecl := none, rustdocItemDecl := none, mainContentLinks := [] }

/-- A page whose `.rustdoc .docblock` selector matches. -/
def c2GoodPage : Page :=
  { mainContentDocblock := none, mainContent := none,
    rustdocDocblock := some "<p>serde overview</p>",
    rustdocMainItemDecl := none, rustdocItemDecl := none, mainContentLinks := [] }

/-- Fetch oracle for which the readme index URL of serde 1.0.0 is a 404 and
every other URL — in particular both remaining spec candidates — succeeds. -/
def c2Oracle : String → FetchOutcome := fun url =>
  if url == "https://docs.rs/serde/1.0.0/serde/index.html" then
    .err "Request failed with status code 404"
  else .ok c2GoodPage

/-- A page where only the legacy `.rustdoc-main .item-decl` selector
matches. -/
def c3Page : Page :=
  { mainContentDocblock := none, mainContent := none, rustdocDocblock := none,
    rustdocMainItemDecl := some "<pre>pub struct Foo;</pre>",
    rustdocItemDecl := none, mainContentLinks := [] }

/-- A page where `.rustdoc .docblock` is empty but the fallback selector
matches, so `getReadMe` renders an empty body instead of the placeholder. -/
def c4Page : Page :=
  { mainContentDocblock := none, mainContent := none, rustdocDocblock := none,
    rustdocMainItemDecl := some "<code>Y</code>",
    rustdocItemDecl := none, mainContentLinks := [] }

/-- A page whose `.rustdoc .docblock` selector matches. -/
def c5Page : Page :=
  { mainContentDocblock := none, mainContent := none,
    rustdocDocblock := some "<p>serde docs</p>",
    rustdocMainItemDecl := none, rustdocItemDecl := none, mainContentLinks := [] }

/-- Fetch oracle on which only the literal `latest` docs.rs readme URL of
serde resolves; every other URL — in particular any crates.io registry
endpoint — fails. -/
def c5Oracle : String → FetchOutcome := fun url =>
  if url == "https://docs.rs/serde/latest/serde/index.html" then .ok c5Page
  else .err "network unreachable"

/-- Two records with the same (name, type) key and different links,
followed by a record with a fresh key. -/
def c8Items : List ItemRecord :=
  [{ name := "A", type := "struct", link := "l1" },
   { name := "A", type := "struct", link := "l2" },
   { name := "B", type := "function", link := "l3" }]

/-! ### Helper lemmas: strings -/

theorem strExt {a b : String} (h : a.data = b.data) : a = b := by
  cases a; cases b; exact congrArg String.mk h

theorem strData_append (a b : String) : (a ++ b).data = a.data ++ b.data := by
  cases a; cases b; rfl

theorem map_mk_data : (l : List String) → (l.map String.data).map (fun d => (⟨d⟩ : String)) = l
  | [] => rfl
  | s :: rest => by
    simp only [List.map_cons]
    rw [map_mk_data rest]

theorem includesL_nil : (l : List Char) → includesL [] l = true
  | [] => rfl
  | _ :: _ => by simp [includesL, isPrefixOfL]

theorem includesS_empty (s : String) : includesS s "" = true := includesL_nil s.data

/-! ### Helper lemmas: `split("::")`, `replaceAll("::", "/")`, `join` -/

theorem splitOnColons_no_colon : (l : List Char) → ':' ∉ l → splitOnColons l = [l]
  | [], _ => rfl
  | [_], _ => rfl
  | a :: b :: rest, h => by
    have ha : a ≠ ':' := by intro e; subst e; exact h (List.mem_cons_self _ _)
    have ih := splitOnColons_no_colon (b :: rest) (fun m => h (List.mem_cons_of_mem _ m))
    simp [splitOnColons, beq_eq_false_iff_ne.mpr ha, ih]

theorem splitOnColons_append : (x tail : List Char) → ':' ∉ x →
    splitOnColons (x ++ ':' :: ':' :: tail) = x :: splitOnColons tail
  | [], tail, _ => by simp [splitOnColons]
  | [c], tail, h => by
    have hc : c ≠ ':' := by intro e; subst e; exact h (List.mem_cons_self _ _)
    have h0 := splitOnColons_append [] tail (by simp)
    simp only [List.nil_append] at h0
    simp [splitOnColons, beq_eq_false_iff_ne.mpr hc, h0]
  | a :: b :: x, tail, h => by
    have ha : a ≠ ':' := by intro e; subst e; exact h (List.mem_cons_self _ _)
    have ih := splitOnColons_append (b :: x) tail (fun m => h (List.mem_cons_of_mem _ m))
    simp only [List.cons_append] at ih ⊢
    simp [splitOnColons, beq_eq_false_iff_ne.mpr ha, ih]

theorem splitOnColons_join : (segs : List (List Char)) → segs ≠ [] →
    (∀ s ∈ segs, ':' ∉ s) → splitOnColons (joinL [':', ':'] segs) = segs
  | [], hne, _ => absurd rfl hne
  | [x], _, h => by
    simpa [joinL] using splitOnColons_no_colon x (h x (List.mem_cons_self _ _))
  | x :: y :: rest, _, h => by
    have hx : ':' ∉ x := h x (List.mem_cons_self _ _)
    have ih := splitOnColons_join (y :: rest) (by simp) (fun s hs => h s (List.mem_cons_of_mem _ hs))
    show splitOnColons (x ++ [':', ':'] ++ joinL [':', ':'] (y :: rest)) = x :: y :: rest
    rw [List.append_assoc]
    rw [show [':', ':'] ++ joinL [':', ':'] (y :: rest) = ':' :: ':' :: joinL [':', ':'] (y :: rest) from rfl]
    rw [splitOnColons_append x _ hx, ih]

theorem replaceColons_no_colon : (l : List Char) → ':' ∉ l → replaceColons l = l
  | [], _ => rfl
  | [_], _ => rfl
  | a :: b :: rest, h => by
    have ha : a ≠ ':' := by intro e; subst e; exact h (List.mem_cons_self _ _)
    have ih := replaceColons_no_colon (b :: rest) (fun m => h (List.mem_cons_of_mem _ m))
    simp [replaceColons, beq_eq_false_iff_ne.mpr ha, ih]

theorem replaceColons_append : (x tail : List Char) → ':' ∉ x →
    replaceColons (x ++ ':' :: ':' :: tail) = x ++ '/' :: replaceColons tail
  | [], tail, _ => by simp [replaceColons]
  | [c], tail, h => by
    have hc : c ≠ ':' := by intro e; subst e; exact h (List.mem_cons_self _ _)
    have h0 := replaceColons_append [] tail (by simp)
    simp only [List.nil_append] at h0
    simp [replaceColons, beq_eq_false_iff_ne.mpr hc, h0]
  | a :: b :: x, tail, h => by
    have ha : a ≠ ':' := by intro e; subst e; exact h (List.mem_cons_self _ _)
    have ih := replaceColons_append (b :: x) tail (fun m => h (List.mem_cons_of_mem _ m))
    simp only [List.cons_append] at ih ⊢
    simp [replaceColons, beq_eq_false_iff_ne.mpr ha, ih]

theorem replaceColons_join : (segs : List (List Char)) →
    (∀ s ∈ segs, ':' ∉ s) → replaceColons (joinL [':', ':'] segs) = joinL ['/'] segs
  | [], _ => rfl
  | [x], h => replaceColons_no_colon x (h x (List.mem_cons_self _ _))
  | x :: y :: rest, h => by
    have hx : ':' ∉ x := h x (List.mem_cons_self _ _)
    have ih := replaceColons_join (y :: rest) (fun s hs => h s (List.mem_cons_of_mem _ hs))
    show replaceColons (x ++ [':', ':'] ++ joinL [':', ':'] (y :: rest)) = joinL ['/'] (x :: y :: rest)
    rw [List.append_assoc]
    rw [show [':', ':'] ++ joinL [':', ':'] (y :: rest) = ':' :: ':' :: joinL [':', ':'] (y :: rest) from rfl]
    rw [replaceColons_append x _ hx, ih]
    show x ++ '/' :: joinL ['/'] (y :: rest) = x ++ ['/'] ++ joinL ['/'] (y :: rest)
    rw [List.append_assoc]
    rfl

theorem jsSplitColons_strJoin (parts : List String) (hne : parts ≠ [])
    (h : ∀ s ∈ parts, (':' : Char) ∉ s.data) :
    jsSplitColons (strJoin "::" parts) = parts := by
  show (splitOnColons (joinL [':', ':'] (parts.map String.data))).map (fun l => (⟨l⟩ : String)) = parts
  rw [splitOnColons_join (parts.map String.data) (by simpa using hne)
    (by intro s hs; rcases List.mem_map.mp hs with ⟨t, ht, rfl⟩; exact h t ht)]
  exact map_mk_data parts

theorem jsReplaceColons_strJoin (parts : List String)
    (h : ∀ s ∈ parts, (':' : Char) ∉ s.data) :
    jsReplaceColons (strJoin "::" parts) = strJoin "/" parts := by
  show (⟨replaceColons (joinL [':', ':'] (parts.map String.data))⟩ : String) =
    ⟨joinL ['/'] (parts.map String.data)⟩
  exact congrArg (fun l => (⟨l⟩ : String))
    (replaceColons_join (parts.map String.data)
      (by intro s hs; rcases List.mem_map.mp hs with ⟨t, ht, rfl⟩; exact h t ht))

/-! ### Claim theorems -/

/-- **C1.** For every get-item call with item kind `module`, the fetched URL
is `https://docs.rs/{crate}/{version}/` followed by the item path with every
`::` replaced by `/` and `/index.html` appended; for every other kind it is
`https://docs.rs/{crate}/{version}/{modulePath}/{kind}.{itemName}.html`,
where `itemName` is the last `::`-delimited segment of the item path and
`modulePath` is the remaining segments joined by `/`.  Stated over an
arbitrary decomposition of the item path into colon-free segments
`segs ++ [name]`. -/
theorem c1_getItemUrl_template (crate_name version item_type : String)
    (segs : List String) (name : String)
    (hsegs : ∀ s ∈ segs, (':' : Char) ∉ s.data) (hname : (':' : Char) ∉ name.data) :
    (item_type = "module" →
      getItemUrl crate_name item_type (strJoin "::" (segs ++ [name])) version =
        "https://docs.rs/" ++ crate_name ++ "/" ++ version ++ "/" ++
          strJoin "/" (segs ++ [name]) ++ "/index.html") ∧
    (item_type ≠ "module" →
      getItemUrl crate_name item_type (strJoin "::" (segs ++ [name])) version =
        "https://docs.rs/" ++ crate_name ++ "/" ++ version ++ "/" ++
          strJoin "/" segs ++ "/" ++ item_type ++ "." ++ name ++ ".html") := by
  have hall : ∀ s ∈ segs ++ [name], (':' : Char) ∉ s.data := by
    intro s hs
    rcases List.mem_append.mp hs with h | h
    · exact hsegs s h
    · simp only [List.mem_singleton] at h; subst h; exact hname
  have hsplit : jsSplitColons (strJoin "::" (segs ++ [name])) = segs ++ [name] :=
    jsSplitColons_strJoin (segs ++ [name]) (by simp) hall
  constructor
  · intro hm
    subst hm
    show "https://docs.rs/" ++ crate_name ++ "/" ++ version ++ "/" ++
        jsReplaceColons (strJoin "::" (segs ++ [name])) ++ "/index.html" = _
    rw [jsReplaceColons_strJoin (segs ++ [name]) hall]
  · intro hm
    have hb : (item_type == "module") = false := beq_eq_false_iff_ne.mpr hm
    simp only [getItemUrl, hb, Bool.false_eq_true, if_false]
    rw [hsplit, List.dropLast_concat, List.getLast?_concat]
    rfl

/-- Witness for C1 at crate `wasmtime`, path `wasmtime::component::Component`,
kind `struct`. -/
theorem c1_witness :
    getItemUrl "wasmtime" "struct" (strJoin "::" (["wasmtime", "component"] ++ ["Component"])) "1.0.0" =
      "https://docs.rs/" ++ "wasmtime" ++ "/" ++ "1.0.0" ++ "/" ++
        strJoin "/" ["wasmtime", "component"] ++ "/" ++ "struct" ++ "." ++ "Component" ++ ".html" :=
  (c1_getItemUrl_template "wasmtime" "1.0.0" "struct" ["wasmtime", "component"] "Component"
    (by decide) (by decide)).2 (by decide)

/-- **C9.** For every get-item call whose kind is not `module` and whose item
path is a single colon-free segment, the module path is empty and the fetched
URL contains an empty path segment — a double slash between the version and
the item filename. -/
theorem c9_single_segment_double_slash (crate_name item_type name version : String)
    (hty : item_type ≠ "module") (hname : (':' : Char) ∉ name.data) :
    getItemUrl crate_name item_type name version =
      "https://docs.rs/" ++ crate_name ++ "/" ++ version ++ "//" ++ item_type ++ "." ++ name ++ ".html" := by
  have hb : (item_type == "module") = false := beq_eq_false_iff_ne.mpr hty
  have hsplit : jsSplitColons name = [name] := by
    show (splitOnColons name.data).map (fun l => (⟨l⟩ : String)) = [name]
    rw [splitOnColons_no_colon name.data hname]
    rfl
  simp only [getItemUrl, hb, Bool.false_eq_true, if_false]
  rw [hsplit]
  show "https://docs.rs/" ++ crate_name ++ "/" ++ version ++ "/" ++ strJoin "/" [] ++ "/" ++
      item_type ++ "." ++ name ++ ".html" = _
  apply strExt
  simp only [strData_append]
  simp [List.append_assoc]
  rfl

/-- Witness for C9 at crate `serde`, kind `trait`, single-segment path
`Serialize`. -/
theorem c9_witness :
    getItemUrl "serde" "trait" "Serialize" "latest" =
      "https://docs.rs/" ++ "serde" ++ "/" ++ "latest" ++ "//" ++ "trait" ++ "." ++ "Serialize" ++ ".html" :=
  c9_single_segment_double_slash "serde" "trait" "Serialize" "latest" (by decide) (by decide)

/-- `lowerS` of the empty string is the empty string. -/
theorem lowerS_empty : lowerS "" = "" := rfl

/-- A guarded `some`/`none` conditional is `isSome` exactly on its guard. -/
theorem isSome_ite_some {α : Type} (b : Bool) (x : α) :
    (if b then some x else none).isSome = b := by cases b <;> rfl

/-- **C6.** Classification of an index-page hyperlink is a pure function of
its href string: the fixed marker list `struct.`, `trait.`, `fn.`, `enum.`,
`type.`, `const.`, `static.`, `macro.` is checked in that order, the first
marker contained in the href determines the kind (first-match-wins lookup in
the ordered marker table), and with no marker the kind is the `"unknown"`
default; in particular an href containing `struct.` (even alongside `fn.`)
classifies as `struct`. -/
theorem c6_classifier_first_match (href : String) :
    classifyType href = classifySpec href ∧
    (includesS href "struct." = true → classifyType href = "struct") := by
  constructor
  · cases h1 : includesS href "struct." <;>
      cases h2 : includesS href "trait." <;>
        cases h3 : includesS href "fn." <;>
          cases h4 : includesS href "enum." <;>
            cases h5 : includesS href "type." <;>
              cases h6 : includesS href "const." <;>
                cases h7 : includesS href "static." <;>
                  cases h8 : includesS href "macro." <;>
                    simp [classifyType, classifySpec, markerTable, firstMatch,
                      h1, h2, h3, h4, h5, h6, h7, h8]
  · intro h
    unfold classifyType
    rw [h]
    rfl

/-- Witness for C6 at an href containing both `struct.` and `fn.`. -/
theorem c6_witness :
    includesS "wasmtime/struct.Engine.fn.new.html" "struct." = true ∧
    classifyType "wasmtime/struct.Engine.fn.new.html" = "struct" :=
  ⟨by decide, (c6_classifier_first_match "wasmtime/struct.Engine.fn.new.html").2 (by decide)⟩

/-- **C7.** For every scanned hyperlink that survives the empty-text /
empty-href skip, `searchInCrate` retains it if and only if (a) no query was
supplied or the query is a case-insensitive substring of the display name,
AND (b) no kind filter was supplied or the filter equals the classified kind
exactly or is a case-insensitive substring of the display name, AND (c) the
classified kind is not the `"unknown"` default (stated as equality with the
spec-side retention predicate `specRetain`). -/
theorem c7_retention_iff (crate_name version : String)
    (query item_type : Option String) (lnk : PageLink)
    (hname : trimS lnk.text ≠ "") (hhref : lnk.href?.getD "" ≠ "") :
    (scanLink crate_name version query item_type lnk).isSome =
      specRetain query item_type (trimS lnk.text) (lnk.href?.getD "") := by
  have h1 : (trimS lnk.text == "") = false := beq_eq_false_iff_ne.mpr hname
  have h2 : (lnk.href?.getD "" == "") = false := beq_eq_false_iff_ne.mpr hhref
  have hq : matchesQueryFn query (trimS lnk.text) =
      (match query with
       | none => true
       | some q => includesS (lowerS (trimS lnk.text)) (lowerS q)) := by
    cases query with
    | none => rfl
    | some q =>
      by_cases hq0 : q = ""
      · subst hq0
        simp [matchesQueryFn, lowerS_empty, includesS_empty]
      · simp [matchesQueryFn, beq_eq_false_iff_ne.mpr hq0]
  have ht : matchesTypeFn item_type (classifyType (lnk.href?.getD "")) (trimS lnk.text) =
      (match item_type with
       | none => true
       | some t => classifyType (lnk.href?.getD "") == t ||
           includesS (lowerS (trimS lnk.text)) (lowerS t)) := by
    cases item_type with
    | none => rfl
    | some t =>
      by_cases ht0 : t = ""
      · subst ht0
        simp [matchesTypeFn, lowerS_empty, includesS_empty]
      · simp [matchesTypeFn, beq_eq_false_iff_ne.mpr ht0]
  simp only [scanLink, h1, h2, Bool.or_self, Bool.false_or, Bool.false_eq_true, if_false]
  rw [isSome_ite_some, hq, ht]
  rfl

/-- Witness for C7: query `hashmap` matches display name `HashMap` and the
link is retained. -/
theorem c7_witness :
    (scanLink "std" "latest" (some "hashmap") none
        { text := "HashMap", href? := some "struct.HashMap.html" }).isSome =
      specRetain (some "hashmap") none
        (trimS "HashMap") ((some "struct.HashMap.html" : Option String).getD "") ∧
    (scanLink "std" "latest" (some "hashmap") none
        { text := "HashMap", href? := some "struct.HashMap.html" }).isSome = true :=
  ⟨c7_retention_iff "std" "latest" (some "hashmap") none
      { text := "HashMap", href? := some "struct.HashMap.html" } (by decide) (by decide),
    by decide⟩

/-- **C10.** If the query argument is absent or empty, the query filter
passes for every scanned link, and the result heading reports the search
term as `all items`. -/
theorem c10_empty_query_all_items :
    (∀ itemName : String, matchesQueryFn none itemName = true) ∧
    (∀ itemName : String, matchesQueryFn (some "") itemName = true) ∧
    searchTermOf none = "all items" ∧
    searchTermOf (some "") = "all items" ∧
    searchInCrate (fun _ => .ok emptyPage) "serde" (some "") none none =
      .ok "# Search Results for \"all items\" in serde\n\nFound 0 items\n\nNo matching items found." := by
  refine ⟨fun n => rfl, fun n => ?_, rfl, rfl, by decide⟩
  simp [matchesQueryFn]

/-- If a predicate holds at index `i`, `findIdx` is at most `i`. -/
theorem findIdx_le_of_pred_at {α : Type} (p : α → Bool) :
    (l : List α) → (i : Nat) → (h : i < l.length) → p (l.get ⟨i, h⟩) = true → l.findIdx p ≤ i
  | [], _, h, _ => absurd h (by simp)
  | a :: _, 0, _, hp => by
    have ha : p a = true := hp
    simp [List.findIdx_cons, ha]
  | a :: as, i+1, h, hp => by
    cases ha : p a with
    | true => simp [List.findIdx_cons, ha]
    | false =>
      have ih := findIdx_le_of_pred_at p as i (Nat.lt_of_succ_lt_succ h) hp
      simp [List.findIdx_cons, ha]
      omega

/-- **C8.** After filtering, `searchInCrate` deduplicates by the
(name, type) pair keeping only the first occurrence in scan order: of two
records at positions `i < j` with equal keys, the one at `j` does not
survive while the first position carrying that key does, and the
deduplicated count is at most the pre-deduplication count. -/
theorem c8_dedup_first_occurrence (items : List ItemRecord) (i j : Nat)
    (hi : i < items.length) (hj : j < items.length) (hij : i < j)
    (hkey : sameKey (items.get ⟨i, hi⟩) (items.get ⟨j, hj⟩) = true) :
    survivesAt items j = false ∧
    survivesAt items (items.findIdx (fun x => sameKey x (items.get ⟨j, hj⟩))) = true ∧
    (uniqueItemsOf items).length ≤ items.length := by
  have hle : items.findIdx (fun x => sameKey x (items.get ⟨j, hj⟩)) ≤ i :=
    findIdx_le_of_pred_at _ items i hi hkey
  have hmlt : items.findIdx (fun x => sameKey x (items.get ⟨j, hj⟩)) < items.length :=
    Nat.lt_of_le_of_lt hle (Nat.lt_of_lt_of_le hij (Nat.le_of_lt hj))
  refine ⟨?_, ?_, ?_⟩
  · unfold survivesAt
    rw [List.get?_eq_get hj]
    have : items.findIdx (fun x => sameKey x (items.get ⟨j, hj⟩)) ≠ j :=
      Nat.ne_of_lt (Nat.lt_of_le_of_lt hle hij)
    simpa using this
  · unfold survivesAt
    rw [List.get?_eq_get hmlt]
    dsimp only
    have hpm : sameKey (items.get ⟨items.findIdx (fun x => sameKey x (items.get ⟨j, hj⟩)), hmlt⟩)
        (items.get ⟨j, hj⟩) = true :=
      @List.findIdx_getElem _ (fun x => sameKey x (items.get ⟨j, hj⟩)) items hmlt
    have hpeq : (fun x => sameKey x (items.get ⟨items.findIdx (fun x => sameKey x (items.get ⟨j, hj⟩)), hmlt⟩)) =
        (fun x => sameKey x (items.get ⟨j, hj⟩)) := by
      funext x
      unfold sameKey at hpm ⊢
      rcases Bool.and_eq_true_iff.mp hpm with ⟨hn, ht⟩
      rw [eq_of_beq hn, eq_of_beq ht]
    rw [hpeq]
    simp
  · unfold uniqueItemsOf
    calc (((List.range items.length).filter (fun i => survivesAt items i)).filterMap items.get?).length
        ≤ ((List.range items.length).filter (fun i => survivesAt items i)).length :=
          List.length_filterMap_le _ _
      _ ≤ (List.range items.length).length := List.length_filter_le _ _
      _ = items.length := List.length_range _

/-- Witness for C8 on two same-key records with different links followed by
a fresh-key record. -/
theorem c8_witness :
    survivesAt c8Items 1 = false ∧
    survivesAt c8Items (c8Items.findIdx (fun x => sameKey x (c8Items.get ⟨1, by decide⟩))) = true ∧
    (uniqueItemsOf c8Items).length ≤ c8Items.length :=
  c8_dedup_first_occurrence c8Items 0 1 (by decide) (by decide) (by decide) (by decide)

/-- **C2 counterexample.**  The spec's second and third overview candidates
both resolve on this oracle, and the first returns a 404 ("not found"), yet
`getReadMe` aborts immediately with a wrapped error: no further candidate is
tried and no `DocumentNotFoundError` is produced, contradicting the claimed
soft-miss fallback. -/
theorem c2_counterexample :
    specReadmeCandidates "serde" "1.0.0" =
      ["https://docs.rs/serde/1.0.0/serde/index.html",
       "https://docs.rs/serde/1.0.0/serde/",
       "https://docs.rs/serde/1.0.0/"] ∧
    c2Oracle "https://docs.rs/serde/1.0.0/serde/index.html" =
      .err "Request failed with status code 404" ∧
    c2Oracle "https://docs.rs/serde/1.0.0/serde/" = .ok c2GoodPage ∧
    c2Oracle "https://docs.rs/serde/1.0.0/" = .ok c2GoodPage ∧
    getReadMe c2Oracle (fun s => s) "serde" (some "1.0.0") =
      .error "Failed to get README for serde: Request failed with status code 404" :=
  ⟨rfl, by decide, by decide, by decide, by decide⟩

/-- **C2 (amended).**  The crate-overview operation builds the single URL
`{crate}/{version}/{crate}/index.html` and fetches it once; any fetch
failure — including a not-found status — aborts immediately with the
wrapped error `Failed to get README for {crate}: {cause}`. -/
theorem c2_amended_single_fetch_abort (crate_name : String) (version? : Option String)
    (f : String → FetchOutcome) (td : String → String) (e : String)
    (h : f (getReadMeUrl crate_name (version?.getD "latest")) = .err e) :
    getReadMe f td crate_name version? =
      .error ("Failed to get README for " ++ crate_name ++ ": " ++ e) := by
  simp only [getReadMe]
  rw [h]

/-- Witness for the amended C2 on the 404 oracle. -/
theorem c2_witness :
    getReadMe c2Oracle (fun s => s) "serde" (some "1.0.0") =
      .error ("Failed to get README for " ++ "serde" ++ ": " ++ "Request failed with status code 404") :=
  c2_amended_single_fetch_abort "serde" (some "1.0.0") c2Oracle (fun s => s)
    "Request failed with status code 404" (by decide)

/-- **C3 counterexample.**  On a page where only the legacy
`.rustdoc-main .item-decl` selector matches, the spec's four-selector
cascade extracts that fragment, but `getReadMe` renders an empty body: the
rendered Markdown does not come from the first non-empty match. -/
theorem c3_counterexample :
    specOverviewExtract c3Page = "<pre>pub struct Foo;</pre>" ∧
    getReadMe (fun _ => .ok c3Page) (fun s => s) "tokio" none =
      .ok "# tokio Documentation\n\n" :=
  ⟨rfl, by decide⟩

/-- **C3 (amended).**  In overview mode the code consults two selectors:
`.rustdoc .docblock`, and `.rustdoc-main .item-decl` only when the first
matches nothing.  The rendered Markdown body always comes from the first
selector's HTML (rendering `td ""` when it matched nothing); the second
selector only decides whether the no-content placeholder is returned
instead of rendering. -/
theorem c3_amended_two_selector_extraction (crate_name : String) (version? : Option String)
    (td : String → String) (page : Page) :
    (page.rustdocDocblock = none → page.rustdocMainItemDecl = none →
      getReadMe (fun _ => .ok page) td crate_name version? =
        .ok ("# " ++ crate_name ++ " Documentation\n\nNo documentation content found at " ++
          getReadMeUrl crate_name (version?.getD "latest"))) ∧
    (∀ h, page.rustdocDocblock = some h →
      getReadMe (fun _ => .ok page) td crate_name version? =
        .ok ("# " ++ crate_name ++ " Documentation\n\n" ++ td h)) ∧
    (page.rustdocDocblock = none → ∀ h, page.rustdocMainItemDecl = some h →
      getReadMe (fun _ => .ok page) td crate_name version? =
        .ok ("# " ++ crate_name ++ " Documentation\n\n" ++ td "")) := by
  refine ⟨fun h1 h2 => ?_, fun h hsome => ?_, fun h1 h hsome => ?_⟩
  · simp [getReadMe, h1, h2]
  · simp [getReadMe, hsome]
  · simp [getReadMe, h1, hsome]

/-- Witness for the amended C3 on the fallback-selector page. -/
theorem c3_witness :
    getReadMe (fun _ => .ok c3Page) (fun s => s) "hyper" none =
      .ok ("# " ++ "hyper" ++ " Documentation\n\n" ++ (fun s => s) "") :=
  (c3_amended_two_selector_extraction "hyper" none (fun s => s) c3Page).2.2
    rfl "<pre>pub struct Foo;</pre>" rfl

/-- **C4 counterexample.**  A successful fetch whose extraction yields empty
content (first selector empty, fallback selector non-empty) does **not**
produce the `No documentation content found` payload in `getReadMe`: the
operation renders an empty body instead. -/
theorem c4_counterexample :
    getReadMe (fun _ => .ok c4Page) (fun s => s) "rand" none =
      .ok "# rand Documentation\n\n" ∧
    includesS "# rand Documentation\n\n" "No documentation content found" = false :=
  ⟨by decide, by decide⟩

/-- **C4 (amended).**  For get-item, a successful fetch with empty extracted
content yields the `No documentation content found at {url}` payload and
never an error, and a failed fetch raises the wrapped generic error (there
is no `DocumentNotFoundError`); for get-overview the placeholder appears
exactly in the both-selectors-empty case. -/
theorem c4_amended_empty_vs_error :
    (∀ (f : String → FetchOutcome) (td : String → String)
        (crate_name item_type item_path : String) (version? : Option String) (page : Page),
      f (getItemUrl crate_name item_type item_path (version?.getD "latest")) = .ok page →
      getItemContentHtml page = "" →
      getItem f td crate_name item_type item_path version? =
        .ok ("# " ++ item_path ++ " (" ++ item_type ++ ")\n\nNo documentation content found at " ++
          getItemUrl crate_name item_type item_path (version?.getD "latest"))) ∧
    (∀ (f : String → FetchOutcome) (td : String → String)
        (crate_name item_type item_path : String) (version? : Option String) (e : String),
      f (getItemUrl crate_name item_type item_path (version?.getD "latest")) = .err e →
      getItem f td crate_name item_type item_path version? =
        .error ("Failed to get item documentation for " ++ item_path ++ ": " ++ e)) ∧
    (∀ (f : String → FetchOutcome) (td : String → String)
        (crate_name : String) (version? : Option String) (page : Page),
      f (getReadMeUrl crate_name (version?.getD "latest")) = .ok page →
      page.rustdocDocblock = none → page.rustdocMainItemDecl = none →
      getReadMe f td crate_name version? =
        .ok ("# " ++ crate_name ++ " Documentation\n\nNo documentation content found at " ++
          getReadMeUrl crate_name (version?.getD "latest"))) := by
  refine ⟨fun f td c t p v? page hf he => ?_, fun f td c t p v? e hf => ?_,
    fun f td c v? page hf h1 h2 => ?_⟩
  · simp only [getItem]
    rw [hf]
    simp [he]
  · simp only [getItem]
    rw [hf]
  · simp only [getReadMe]
    rw [hf]
    simp [h1, h2]

/-- Witness for the amended C4: empty extraction after a successful fetch
produces the placeholder payload. -/
theorem c4_witness :
    getItem (fun _ => .ok emptyPage) (fun s => s) "serde" "struct" "Foo" none =
      .ok ("# " ++ "Foo" ++ " (" ++ "struct" ++ ")\n\nNo documentation content found at " ++
        getItemUrl "serde" "struct" "Foo" ((none : Option String).getD "latest")) :=
  c4_amended_empty_vs_error.1 (fun _ => .ok emptyPage) (fun s => s)
    "serde" "struct" "Foo" none emptyPage rfl rfl

/-- **C5 counterexample.**  With the version argument absent, `getReadMe`
succeeds against an oracle on which every URL except the literal
`https://docs.rs/serde/latest/serde/index.html` fails — in particular the
registry per-crate endpoint is unreachable: the sentinel `latest` is spliced
into the documentation URL verbatim and no registry query resolves it to a
concrete version. -/
theorem c5_counterexample :
    getReadMeUrl "serde" ((none : Option String).getD "latest") =
      "https://docs.rs/serde/latest/serde/index.html" ∧
    c5Oracle "https://crates.io/api/v1/crates/serde" = .err "network unreachable" ∧
    getReadMe c5Oracle (fun s => s) "serde" none =
      .ok "# serde Documentation\n\n<p>serde docs</p>" :=
  ⟨by decide, by decide, by decide⟩

/-- **C5 (amended).**  The caller-supplied version token is spliced into the
documentation URL unchanged; when absent it defaults to the literal sentinel
`latest`.  No registry query is made: each operation's result depends only
on the fetch outcome at its single documentation URL. -/
theorem c5_amended_version_passthrough :
    (∀ (crate_name : String) (version? : Option String) (f g : String → FetchOutcome)
        (td : String → String),
      f (getReadMeUrl crate_name (version?.getD "latest")) =
        g (getReadMeUrl crate_name (version?.getD "latest")) →
      getReadMe f td crate_name version? = getReadMe g td crate_name version?) ∧
    (∀ (crate_name item_type item_path : String) (version? : Option String)
        (f g : String → FetchOutcome) (td : String → String),
      f (getItemUrl crate_name item_type item_path (version?.getD "latest")) =
        g (getItemUrl crate_name item_type item_path (version?.getD "latest")) →
      getItem f td crate_name item_type item_path version? =
        getItem g td crate_name item_type item_path version?) ∧
    (∀ crate_name version : String,
      getReadMeUrl crate_name version =
        "https://docs.rs/" ++ crate_name ++ "/" ++ version ++ "/" ++ crate_name ++ "/index.html") := by
  refine ⟨fun c v? f g td h => ?_, fun c t p v? f g td h => ?_, fun c v => rfl⟩
  · simp only [getReadMe]
    rw [h]
  · simp only [getItem]
    rw [h]

/-- Witness for the amended C5: the result on the latest-only oracle agrees
with the result on the constant oracle returning the same page. -/
theorem c5_witness :
    getReadMe c5Oracle (fun s => s) "serde" none =
      getReadMe (fun _ => .ok c5Page) (fun s => s) "serde" none :=
  c5_amended_version_passthrough.1 "serde" none c5Oracle (fun _ => .ok c5Page)
    (fun s => s) (by decide)

end DocsRs
